import Mathlib

/-!
Verification development for the genai-backend repository.

The authentication core lives in src/auth.py (password hashing via passlib
bcrypt, token issuance and verification via python-jose) and src/main.py
(the FastAPI endpoints: signup, login, refresh, the session gate, and the
user CRUD routes). This file gives a shallow embedding of that core:

* claims maps are association lists of string keys to JSON-ish values;
* a signed token is modelled as the data that jwt.encode determines: the
  claims map, the signing secret and the algorithm name; arbitrary
  non-token strings are modelled by a separate malformed constructor;
* jwt.decode with the default options of python-jose (the call sites pass
  no options) verifies the signature and then validates the registered
  claims iat, nbf, exp, aud, sub and jti exactly as jose._validate_claims
  does; every failure is a JoseError value, mirroring the JWTError
  exceptions of the library;
* bcrypt itself is kept as a parameter (a function of cost, salt and
  plaintext): every theorem about hashing holds for an arbitrary such
  function, because the properties in question come from the digest
  structure (the salt is stored inside the digest), not from the kernel;
* the credential store is a list of user records; the endpoint handlers
  become pure functions from the store and the request data to a result
  and a new store. Time is a natural number of seconds passed explicitly
  where the Python code reads the clock.
-/

namespace GenAI

/-- JSON-ish values that can sit in a claims map: strings and integers
are the only value shapes the application and the modelled validators
touch. -/
inductive JVal where
  | str (s : String)
  | nat (n : Nat)
deriving DecidableEq, Repr

/-- A claims map, as handed to jwt.encode: keys to values. Python dicts
never hold a key twice; the embedding uses first-match lookup, which
agrees with dict semantics on every map the application builds. -/
abbrev Claims := List (String × JVal)

/-- Dictionary lookup on a claims map: the value at the first binding of
the key. -/
def lookupClaim : Claims → String → Option JVal
  | [], _ => none
  | p :: rest, k => if p.1 = k then some p.2 else lookupClaim rest k

/-- Key-membership test, as the in operator on a dict. -/
def hasKey (c : Claims) (k : String) : Bool :=
  (lookupClaim c k).isSome

/-- Dictionary update, as dict.update performs it: replace the value at
an existing key in place, otherwise append the new binding. -/
def setClaim (c : Claims) (k : String) (v : JVal) : Claims :=
  if hasKey c k then
    c.map (fun p => if p.1 = k then (k, v) else p)
  else
    c ++ [(k, v)]

/-- Module constant SECRET_KEY of src/auth.py. -/
def SECRET_KEY : String := "your-secret-key"

/-- Module constant ALGORITHM of src/auth.py. -/
def ALGORITHM : String := "HS256"

/-- A presented token: either the result of jwt.encode (the claims, the
secret that signed it and the algorithm name), or a string that does not
parse as a compact JWS at all. -/
inductive Token where
  | signed (claims : Claims) (secret : String) (alg : String)
  | malformed (raw : String)
deriving DecidableEq, Repr

/-- The failure modes of jwt.decode; all of them are subclasses of
JWTError in python-jose, so the except JWTError handler in src/auth.py
catches each one. -/
inductive JoseError where
  | signatureError
  | malformedError
  | algError
  | claimsError (msg : String)
  | expired
deriving DecidableEq, Repr

/-- Success test on an Except value. -/
def exOk {α : Type} : Except JoseError α → Bool
  | .ok _ => true
  | .error _ => false

/-- Reading of a claim value as int() would read it: an integer value is
itself, a string value parses as a number or fails. -/
def toIntClaim : JVal → Option Nat
  | .nat n => some n
  | .str s => s.toNat?

/-- Tests whether a claim value is a string. -/
def JVal.isStr : JVal → Bool
  | .str _ => true
  | .nat _ => false

/-- Validation of the iat claim (jose._validate_iat): if present it must
read as an integer; no comparison against the clock. -/
def validateIat (c : Claims) : Except JoseError Unit :=
  match lookupClaim c "iat" with
  | none => .ok ()
  | some v =>
    match toIntClaim v with
    | some _ => .ok ()
    | none => .error (.claimsError "Issued At claim (iat) must be an integer.")

/-- Validation of the nbf claim (jose._validate_nbf, leeway 0): if
present it must read as an integer that is not in the future. -/
def validateNbf (c : Claims) (now : Nat) : Except JoseError Unit :=
  match lookupClaim c "nbf" with
  | none => .ok ()
  | some v =>
    match toIntClaim v with
    | none => .error (.claimsError "Not Before claim (nbf) must be an integer.")
    | some nbf => if now < nbf then .error (.claimsError "The token is not yet valid (nbf)") else .ok ()

/-- Validation of the exp claim (jose._validate_exp, leeway 0): if
present it must read as an integer, and the token is expired exactly when
that integer is smaller than the current time. -/
def validateExp (c : Claims) (now : Nat) : Except JoseError Unit :=
  match lookupClaim c "exp" with
  | none => .ok ()
  | some v =>
    match toIntClaim v with
    | none => .error (.claimsError "Expiration Time claim (exp) must be an integer.")
    | some e => if e < now then .error .expired else .ok ()

/-- Validation of the aud claim (jose._validate_aud): the decode calls in
src/auth.py pass no audience, so a present aud claim always fails — a
string value is wrapped to a one-element list that cannot contain the
absent audience, and a non-string value is a format error. -/
def validateAud (c : Claims) : Except JoseError Unit :=
  match lookupClaim c "aud" with
  | none => .ok ()
  | some v =>
    if v.isStr then .error (.claimsError "Invalid audience")
    else .error (.claimsError "Invalid claim format in token")

/-- Validation of the sub claim (jose._validate_sub): if present it must
be a string. -/
def validateSub (c : Claims) : Except JoseError Unit :=
  match lookupClaim c "sub" with
  | none => .ok ()
  | some v => if v.isStr then .ok () else .error (.claimsError "Subject must be a string.")

/-- Validation of the jti claim (jose._validate_jti): if present it must
be a string. -/
def validateJti (c : Claims) : Except JoseError Unit :=
  match lookupClaim c "jti" with
  | none => .ok ()
  | some v => if v.isStr then .ok () else .error (.claimsError "JWT ID claim (jti) must be a string.")

/-- The registered-claim validation performed by jose._validate_claims
under the default options, in the order of that function (iss and
at_hash are no-ops because the call sites pass no issuer and no access
token argument). -/
def validateClaims (c : Claims) (now : Nat) : Except JoseError Unit :=
  match validateIat c with
  | .error e => .error e
  | .ok _ =>
    match validateNbf c now with
    | .error e => .error e
    | .ok _ =>
      match validateExp c now with
      | .error e => .error e
      | .ok _ =>
        match validateAud c with
        | .error e => .error e
        | .ok _ =>
          match validateSub c with
          | .error e => .error e
          | .ok _ => validateJti c

/-- Conjunction of the registered-claim validations other than the
expiration check: what a claims map must pass, beyond exp, for
jwt.decode to accept it under the default options. -/
def auxClaimsOk (c : Claims) (now : Nat) : Bool :=
  exOk (validateIat c) && exOk (validateNbf c now) && exOk (validateAud c) &&
    exOk (validateSub c) && exOk (validateJti c)

/-- Embedding of jwt.encode(data, key, algorithm): a signed structure
carrying exactly the given claims. -/
def jwtEncode (data : Claims) (key : String) (alg : String) : Token :=
  .signed data key alg

/-- Embedding of jwt.decode(token, key, algorithms) with default
options: reject malformed input, reject an algorithm outside the allowed
list, reject a signature made with a different key, then run the
registered-claim validation and return the claims. -/
def jwtDecodeE (t : Token) (key : String) (algs : List String) (now : Nat) : Except JoseError Claims :=
  match t with
  | .malformed _ => .error .malformedError
  | .signed c s a =>
    if algs.contains a then
      if s = key then
        match validateClaims c now with
        | .ok _ => .ok c
        | .error e => .error e
      else .error .signatureError
    else .error .algError

/-- A bcrypt digest as passlib stores it: the modular-crypt string
records the cost, the salt and the derived key, so the embedding keeps
the three fields. -/
structure Digest where
  cost : Nat
  salt : Nat
  mac : Nat
deriving DecidableEq, Repr

/-- Embedding of hash_password (src/auth.py): passlib draws a fresh
random salt for each call and derives the key from cost, salt and
plaintext; the salt consumed by the call is passed explicitly, and the
bcrypt kernel is a parameter. -/
def hash_password (bcrypt : Nat → Nat → String → Nat) (cost : Nat) (password : String) (salt : Nat) : Digest :=
  { cost := cost, salt := salt, mac := bcrypt cost salt password }

/-- Embedding of verify_password (src/auth.py): passlib re-derives the
key using the cost and salt embedded in the digest and compares. -/
def verify_password (bcrypt : Nat → Nat → String → Nat) (plain : String) (d : Digest) : Bool :=
  bcrypt d.cost d.salt plain == d.mac

/-- Embedding of create_access_token (src/auth.py): copy the claims, set
exp to now plus the requested minutes, and sign with the module secret
and algorithm. -/
def create_access_token (data : Claims) (expires_minutes : Nat) (now : Nat) : Token :=
  jwtEncode (setClaim data "exp" (.nat (now + expires_minutes * 60))) SECRET_KEY ALGORITHM

/-- Embedding of create_refresh_token (src/auth.py): sign the claims as
given, with no expiration injected. -/
def create_refresh_token (data : Claims) : Token :=
  jwtEncode data SECRET_KEY ALGORITHM

/-- Embedding of decode_access_token (src/auth.py): jwt.decode under the
module secret and algorithm, with every JWTError turned into None. -/
def decode_access_token (t : Token) (now : Nat) : Option Claims :=
  match jwtDecodeE t SECRET_KEY [ALGORITHM] now with
  | .ok c => some c
  | .error _ => none

/-- Embedding of decode_token (src/auth.py): the body is identical to
decode_access_token. -/
def decode_token (t : Token) (now : Nat) : Option Claims :=
  match jwtDecodeE t SECRET_KEY [ALGORITHM] now with
  | .ok c => some c
  | .error _ => none

/-- A HTTPException as raised by the endpoints: status code and detail
message. -/
structure HTTPError where
  status : Nat
  detail : String
deriving DecidableEq, Repr

/-- The stored password column. The column is a string in the schema
(src/models.py); a value is either the submitted text as signup and the
user CRUD receive it, or a bcrypt modular-crypt digest as hash_password
produces it — the two shapes are syntactically distinguishable in the
source system, so the embedding separates them by constructor. -/
inductive PwdVal where
  | raw (s : String)
  | digest (d : Digest)
deriving DecidableEq, Repr

/-- Tests whether the stored password is a digest. -/
def PwdVal.isDigest : PwdVal → Bool
  | .raw _ => false
  | .digest _ => true

/-- A User row (src/models.py): store-assigned id, display name, email
and the password column. -/
structure User where
  id : Option Nat
  name : String
  email : String
  password : PwdVal
deriving DecidableEq, Repr

/-- The credential store: the rows of the user table. -/
abbrev Store := List User

/-- The id the store assigns to the next inserted row: one past the
largest id in use. -/
def nextId (s : Store) : Nat :=
  (s.map (fun u => u.id.getD 0)).foldr max 0 + 1

/-- Embedding of the exact-match email lookup
select(User).where(User.email == e) ... .first(): the first row whose
email column equals the given string. -/
def findByEmail : Store → String → Option User
  | [], _ => none
  | u :: rest, e => if u.email = e then some u else findByEmail rest e

/-- Embedding of session.get(User, user_id): lookup by primary key. -/
def sessionGet : Store → Nat → Option User
  | [], _ => none
  | u :: rest, uid => if u.id = some uid then some u else sessionGet rest uid

/-- Embedding of the signup endpoint (src/main.py): reject when a row
with the same email exists, otherwise hash the submitted password and
persist the row. The salt drawn by passlib inside hash_password is
passed explicitly. The pair carries the response and the store after the
call. -/
def signup (bcrypt : Nat → Nat → String → Nat) (cost : Nat) (s : Store)
    (name email password : String) (salt : Nat) : Except HTTPError String × Store :=
  match findByEmail s email with
  | some _ => (.error { status := 400, detail := "User already exists" }, s)
  | none =>
    let u : User :=
      { id := some (nextId s), name := name, email := email,
        password := .digest (hash_password bcrypt cost password salt) }
    (.ok "User registered!", s ++ [u])

/-- Embedding of the create_user endpoint POST /users (src/main.py): the
row is persisted exactly as submitted — no duplicate-email check and no
hashing of the password field. -/
def create_user (s : Store) (name email password : String) : String × Store :=
  ("User added", s ++ [{ id := some (nextId s), name := name, email := email,
                         password := .raw password }])

/-- Embedding of the update_user endpoint PUT /users/user_id
(src/main.py): 404 when the id is absent; otherwise the name and email
of the row are overwritten from the request and the password column is
left untouched (the handler never assigns it). -/
def update_user (s : Store) (uid : Nat) (newName newEmail : String) : Except HTTPError Unit × Store :=
  match sessionGet s uid with
  | none => (.error { status := 404, detail := "User not found" }, s)
  | some _ =>
    (.ok (), s.map (fun u => if u.id = some uid then { u with name := newName, email := newEmail } else u))

/-- The Set-Cookie parameters produced by response.set_cookie. -/
structure Cookie where
  key : String
  value : Token
  httponly : Bool
  secure : Bool
  samesite : String
  max_age : Nat
deriving DecidableEq, Repr

/-- The successful login response: the JSON body fields and the cookie
attached to the response. -/
structure LoginResponse where
  access_token : Token
  token_type : String
  cookie : Cookie
deriving DecidableEq, Repr

/-- Verification of the submitted password against the stored column.
On a digest this is verify_password; on a raw string passlib has no
recognizable hash to verify against (it raises UnknownHashError there,
a path no claim exercises), so the match fails. -/
def verifyStored (bcrypt : Nat → Nat → String → Nat) (plain : String) : PwdVal → Bool
  | .digest d => verify_password bcrypt plain d
  | .raw _ => false

/-- Embedding of the login endpoint (src/main.py): look the user up by
email, verify the password, then issue one access token (15 minutes) and
one refresh token for the email and attach the refresh token as a cookie
with httponly true, secure False, samesite strict and a 7-day max age. -/
def login (bcrypt : Nat → Nat → String → Nat) (s : Store)
    (username password : String) (now : Nat) : Except HTTPError LoginResponse :=
  match findByEmail s username with
  | none => .error { status := 401, detail := "User not found" }
  | some user =>
    if verifyStored bcrypt password user.password then
      .ok { access_token := create_access_token [("sub", .str user.email)] 15 now,
            token_type := "bearer",
            cookie :=
              { key := "refresh_token",
                value := create_refresh_token [("sub", .str user.email)],
                httponly := true,
                secure := false,
                samesite := "strict",
                max_age := 7 * 24 * 60 * 60 } }
    else .error { status := 401, detail := "Incorrect password" }

/-- The outcome of the session gate: a 401 rejection, an uncaught
KeyError escaping the handler, or the authenticated principal. -/
inductive GateResult where
  | reject (e : HTTPError)
  | keyError (k : String)
  | principal (v : JVal)
deriving DecidableEq, Repr

/-- Embedding of get_current_user (src/main.py). The Python guard reads
if not payload, which fires both when decode returned None and when it
returned an empty dict — an empty dict is falsy; past the guard,
payload["sub"] raises KeyError when the key is absent. -/
def get_current_user (token : Token) (now : Nat) : GateResult :=
  match decode_access_token token now with
  | none => .reject { status := 401, detail := "Invalid or expired token" }
  | some payload =>
    if payload.isEmpty then .reject { status := 401, detail := "Invalid or expired token" }
    else
      match lookupClaim payload "sub" with
      | some v => .principal v
      | none => .keyError "sub"

/-- The outcome of the refresh endpoint: a 401 rejection, an uncaught
KeyError, or the JSON body of the success response. The success carries
no cookie: the handler returns a plain dict, so the refresh token is
never rotated or re-issued. -/
inductive RefreshResult where
  | reject (e : HTTPError)
  | keyError (k : String)
  | success (access_token : Token) (token_type : String)
deriving DecidableEq, Repr

/-- Embedding of the refresh endpoint (src/main.py): 401 when the cookie
is absent; 401 when decode_token returns a falsy payload (None, or an
empty dict under the same if not payload guard); otherwise a brand-new
access token for payload["sub"], where a missing sub key raises
KeyError. -/
def refresh_token (cookie : Option Token) (now : Nat) : RefreshResult :=
  match cookie with
  | none => .reject { status := 401, detail := "No refresh token found" }
  | some tok =>
    match decode_token tok now with
    | none => .reject { status := 401, detail := "Invalid refresh token" }
    | some payload =>
      if payload.isEmpty then .reject { status := 401, detail := "Invalid refresh token" }
      else
        match lookupClaim payload "sub" with
        | none => .keyError "sub"
        | some v => .success (create_access_token [("sub", v)] 15 now) "bearer"

/-- Membership test for the email column. -/
def containsStr : List String → String → Bool
  | [], _ => false
  | a :: l, e => (a == e) || containsStr l e

/-- No email occurs twice in the list. -/
def emailsNodup : List String → Bool
  | [] => true
  | e :: l => (!(containsStr l e)) && emailsNodup l

/-- The credential-store invariant of the spec: emails are unique across
all rows, and every password column holds a digest, never the submitted
text. -/
def credInv (s : Store) : Bool :=
  emailsNodup (s.map (fun u => u.email)) && s.all (fun u => u.password.isDigest)

/-- Number of rows holding a given email. -/
def countEmail (s : Store) (e : String) : Nat :=
  (s.filter (fun u => u.email == e)).length

/-- A concrete bcrypt kernel used in the closed witnesses: any function
of cost, salt and plaintext serves, since the theorems are proved for
every kernel. -/
def bc0 (cost salt : Nat) (p : String) : Nat :=
  cost + 31 * salt + 1009 * p.length

/-- A store reached by one signup call on the empty store. -/
def demoStore : Store :=
  (signup bc0 12 [] "Alice" "a@x.com" "pw" 5).2

/-- A store reached by a second signup call on demoStore. -/
def demoStore2 : Store :=
  (signup bc0 12 demoStore "Bob" "b@x.com" "pw2" 6).2

/-- The single row of demoStore. -/
def demoUser : User :=
  { id := some 1, name := "Alice", email := "a@x.com",
    password := .digest (hash_password bc0 12 "pw" 5) }

/-- The claims a token carries, when it is a signed token at all. -/
def Token.claimsOf : Token → Option Claims
  | .signed c _ _ => some c
  | .malformed _ => none

/-! ### Lemmas about claim lookup, update and validation -/

theorem lookupClaim_append_of_none (c d : Claims) (k : String)
    (h : lookupClaim c k = none) : lookupClaim (c ++ d) k = lookupClaim d k := by
  induction c with
  | nil => rfl
  | cons p rest ih =>
    by_cases hb : p.1 = k
    · simp [lookupClaim, hb] at h
    · simp [lookupClaim, hb] at h ⊢
      exact ih h

theorem lookupClaim_append_of_some (c d : Claims) (k : String) (v : JVal)
    (h : lookupClaim c k = some v) : lookupClaim (c ++ d) k = some v := by
  induction c with
  | nil => simp [lookupClaim] at h
  | cons p rest ih =>
    by_cases hb : p.1 = k
    · simp [lookupClaim, hb] at h ⊢
      exact h
    · simp [lookupClaim, hb] at h ⊢
      exact ih h

theorem lookupClaim_replace_same (c : Claims) (k : String) (v : JVal)
    (h : hasKey c k = true) :
    lookupClaim (c.map (fun p => if p.1 = k then (k, v) else p)) k = some v := by
  induction c with
  | nil => simp [hasKey, lookupClaim] at h
  | cons p rest ih =>
    by_cases hb : p.1 = k
    · simp [lookupClaim, hb]
    · simp [hasKey, lookupClaim, hb] at h ⊢
      exact ih h

theorem lookupClaim_replace_ne (c : Claims) (k k2 : String) (v : JVal) (h : k2 ≠ k) :
    lookupClaim (c.map (fun p => if p.1 = k then (k, v) else p)) k2 = lookupClaim c k2 := by
  induction c with
  | nil => rfl
  | cons p rest ih =>
    by_cases hb : p.1 = k
    · have hk : k ≠ k2 := fun he => h he.symm
      have hp : p.1 ≠ k2 := by rw [hb]; exact hk
      simp [lookupClaim, hb, hk, hp, ih]
    · by_cases hp : p.1 = k2
      · simp [lookupClaim, hb, hp, h]
      · simp [lookupClaim, hb, hp, ih]

theorem lookupClaim_setClaim_same (c : Claims) (k : String) (v : JVal) :
    lookupClaim (setClaim c k v) k = some v := by
  by_cases h : hasKey c k = true
  · simp [setClaim, h]
    exact lookupClaim_replace_same c k v h
  · have hn : lookupClaim c k = none := by
      cases hc : lookupClaim c k with
      | none => rfl
      | some w => exact absurd (by simp [hasKey, hc]) h
    have hb : hasKey c k = false := by simp [hasKey, hn]
    simp [setClaim, hb]
    rw [lookupClaim_append_of_none c [(k, v)] k hn]
    simp [lookupClaim]

theorem lookupClaim_setClaim_ne (c : Claims) (k k2 : String) (v : JVal) (h : k2 ≠ k) :
    lookupClaim (setClaim c k v) k2 = lookupClaim c k2 := by
  by_cases hk : hasKey c k = true
  · simp [setClaim, hk]
    exact lookupClaim_replace_ne c k k2 v h
  · have hb : hasKey c k = false := by
      cases hc : hasKey c k with
      | false => rfl
      | true => exact absurd hc hk
    simp [setClaim, hb]
    cases hc : lookupClaim c k2 with
    | some w => exact lookupClaim_append_of_some c [(k, v)] k2 w hc
    | none =>
      rw [lookupClaim_append_of_none c [(k, v)] k2 hc]
      have : k ≠ k2 := fun he => h he.symm
      simp [lookupClaim, this]

theorem setClaim_not_isEmpty (c : Claims) (k : String) (v : JVal) :
    (setClaim c k v).isEmpty = false := by
  cases c with
  | nil => rfl
  | cons p rest =>
    by_cases h : hasKey (p :: rest) k = true
    · simp [setClaim, h, List.isEmpty]
    · have hb : hasKey (p :: rest) k = false := by
        cases hc : hasKey (p :: rest) k with
        | false => rfl
        | true => exact absurd hc h
      simp [setClaim, hb, List.isEmpty]

theorem lookupClaim_some_not_isEmpty (c : Claims) (k : String) (v : JVal)
    (h : lookupClaim c k = some v) : c.isEmpty = false := by
  cases c with
  | nil => simp [lookupClaim] at h
  | cons p rest => rfl

theorem validateIat_ext (c d : Claims) (h : lookupClaim c "iat" = lookupClaim d "iat") :
    validateIat c = validateIat d := by
  unfold validateIat
  rw [h]

theorem validateNbf_ext (c d : Claims) (now : Nat)
    (h : lookupClaim c "nbf" = lookupClaim d "nbf") :
    validateNbf c now = validateNbf d now := by
  unfold validateNbf
  rw [h]

theorem validateAud_ext (c d : Claims) (h : lookupClaim c "aud" = lookupClaim d "aud") :
    validateAud c = validateAud d := by
  unfold validateAud
  rw [h]

theorem validateSub_ext (c d : Claims) (h : lookupClaim c "sub" = lookupClaim d "sub") :
    validateSub c = validateSub d := by
  unfold validateSub
  rw [h]

theorem validateJti_ext (c d : Claims) (h : lookupClaim c "jti" = lookupClaim d "jti") :
    validateJti c = validateJti d := by
  unfold validateJti
  rw [h]

theorem validateClaims_exOk (c : Claims) (now : Nat) :
    exOk (validateClaims c now) = (auxClaimsOk c now && exOk (validateExp c now)) := by
  cases h1 : validateIat c <;> cases h2 : validateNbf c now <;>
    cases h3 : validateExp c now <;> cases h4 : validateAud c <;>
      cases h5 : validateSub c <;> cases h6 : validateJti c <;>
        simp [validateClaims, auxClaimsOk, h1, h2, h3, h4, h5, h6, exOk]

theorem auxClaimsOk_setClaim_exp (c : Claims) (v : JVal) (now : Nat) :
    auxClaimsOk (setClaim c "exp" v) now = auxClaimsOk c now := by
  unfold auxClaimsOk
  rw [validateIat_ext (setClaim c "exp" v) c (lookupClaim_setClaim_ne c "exp" "iat" v (by decide)),
      validateNbf_ext (setClaim c "exp" v) c now (lookupClaim_setClaim_ne c "exp" "nbf" v (by decide)),
      validateAud_ext (setClaim c "exp" v) c (lookupClaim_setClaim_ne c "exp" "aud" v (by decide)),
      validateSub_ext (setClaim c "exp" v) c (lookupClaim_setClaim_ne c "exp" "sub" v (by decide)),
      validateJti_ext (setClaim c "exp" v) c (lookupClaim_setClaim_ne c "exp" "jti" v (by decide))]

theorem decode_access_token_signed_of_ok (c : Claims) (now : Nat)
    (h : exOk (validateClaims c now) = true) :
    decode_access_token (Token.signed c SECRET_KEY ALGORITHM) now = some c := by
  cases hv : validateClaims c now with
  | ok u => simp [decode_access_token, jwtDecodeE, hv]
  | error e =>
    rw [hv] at h
    simp [exOk] at h

theorem decode_access_token_signed_of_err (c : Claims) (now : Nat)
    (h : exOk (validateClaims c now) = false) :
    decode_access_token (Token.signed c SECRET_KEY ALGORITHM) now = none := by
  cases hv : validateClaims c now with
  | error e => simp [decode_access_token, jwtDecodeE, hv]
  | ok u =>
    rw [hv] at h
    simp [exOk] at h

theorem decode_token_eq : decode_token = decode_access_token := by
  funext t now
  cases hE : jwtDecodeE t SECRET_KEY [ALGORITHM] now <;>
    simp [decode_token, decode_access_token, hE]

theorem containsStr_append (l1 l2 : List String) (e : String) :
    containsStr (l1 ++ l2) e = (containsStr l1 e || containsStr l2 e) := by
  induction l1 with
  | nil => simp [containsStr]
  | cons a l ih => simp [containsStr, ih, Bool.or_assoc]

theorem beqComm (a b : String) : (a == b) = (b == a) := by
  by_cases h : a = b
  · subst h; rfl
  · have h2 : ¬ b = a := fun hba => h hba.symm
    simp [h, h2]

theorem emailsNodup_append_single (l : List String) (e : String)
    (h1 : emailsNodup l = true) (h2 : containsStr l e = false) :
    emailsNodup (l ++ [e]) = true := by
  induction l with
  | nil => simp [emailsNodup, containsStr]
  | cons a l ih =>
    simp [emailsNodup] at h1
    simp [containsStr] at h2
    have hea : ¬ e = a := fun he => h2.1 he.symm
    simp [emailsNodup, containsStr_append, containsStr, hea, h1.1, ih h1.2 h2.2]

theorem findByEmail_none_not_contains (s : Store) (e : String)
    (h : findByEmail s e = none) :
    containsStr (s.map (fun u => u.email)) e = false := by
  induction s with
  | nil => rfl
  | cons u rest ih =>
    by_cases hb : u.email = e
    · simp [findByEmail, hb] at h
    · simp [findByEmail, hb] at h
      simp [containsStr, hb, ih h]

theorem findByEmail_isSome_of_count (s : Store) (e : String)
    (h : 0 < countEmail s e) : (findByEmail s e).isSome = true := by
  induction s with
  | nil => simp [countEmail, List.filter] at h
  | cons u rest ih =>
    by_cases hb : u.email = e
    · simp [findByEmail, hb]
    · have hbe : (u.email == e) = false := by simp [hb]
      simp [countEmail, List.filter_cons, hbe] at h
      simp [findByEmail, hb]
      exact ih (by simpa [countEmail] using h)

/-! ### Claim theorems -/

/-- C5: for every password p, every bcrypt kernel and cost, verifying p
against hash(p) succeeds, and two calls of hash on the same p with the
distinct fresh random salts of two draws produce two different digests,
because the digest embeds its salt. -/
theorem hash_verify_salted (bcrypt : Nat → Nat → String → Nat) (cost : Nat) (p : String)
    (s1 s2 : Nat) (hne : s1 ≠ s2) :
    verify_password bcrypt p (hash_password bcrypt cost p s1) = true ∧
    hash_password bcrypt cost p s1 ≠ hash_password bcrypt cost p s2 := by
  constructor
  · simp [verify_password, hash_password]
  · intro h
    exact hne (congrArg Digest.salt h)

/-- Witness for hash_verify_salted at a concrete kernel, password and
pair of salts. -/
theorem hash_verify_salted_witness :
    verify_password bc0 "pw" (hash_password bc0 12 "pw" 0) = true ∧
    hash_password bc0 12 "pw" 0 ≠ hash_password bc0 12 "pw" 1 :=
  hash_verify_salted bc0 12 "pw" 0 1 (by decide)

/-- C6: signup with an email already present in the store is rejected
with the 400 duplicate-identity error and leaves the store unchanged: it
still holds exactly one row for that email. -/
theorem signup_duplicate_rejected (bcrypt : Nat → Nat → String → Nat) (cost : Nat)
    (s : Store) (name e password : String) (salt : Nat)
    (h : countEmail s e = 1) :
    signup bcrypt cost s name e password salt =
      (.error { status := 400, detail := "User already exists" }, s) ∧
    countEmail (signup bcrypt cost s name e password salt).2 e = 1 := by
  have hs : (findByEmail s e).isSome = true :=
    findByEmail_isSome_of_count s e (by rw [h]; exact Nat.zero_lt_one)
  cases hf : findByEmail s e with
  | none =>
    rw [hf] at hs
    simp at hs
  | some u =>
    constructor
    · simp [signup, hf]
    · simp [signup, hf, h]

/-- Witness for signup_duplicate_rejected: a second signup for the email
already registered in demoStore. -/
theorem signup_duplicate_rejected_witness :
    signup bc0 12 demoStore "X" "a@x.com" "zz" 7 =
      (.error { status := 400, detail := "User already exists" }, demoStore) ∧
    countEmail (signup bc0 12 demoStore "X" "a@x.com" "zz" 7).2 "a@x.com" = 1 :=
  signup_duplicate_rejected bc0 12 demoStore "X" "a@x.com" "zz" 7 (by rfl)

/-- C7: the refresh flow rejects with the no-refresh-token 401 when the
cookie is absent, rejects with the invalid-refresh-token 401 when the
presented token fails verification, and on success returns a brand-new
access token whose subject equals the subject of the presented refresh
token; the success result carries no cookie, so the refresh token is not
rotated or re-issued. -/
theorem refresh_flow_contract (now : Nat) :
    refresh_token none now = .reject { status := 401, detail := "No refresh token found" } ∧
    (∀ tok, decode_token tok now = none →
      refresh_token (some tok) now = .reject { status := 401, detail := "Invalid refresh token" }) ∧
    (∀ tok payload v, decode_token tok now = some payload →
      lookupClaim payload "sub" = some v →
      refresh_token (some tok) now = .success (create_access_token [("sub", v)] 15 now) "bearer") := by
  refine ⟨rfl, ?_, ?_⟩
  · intro tok h
    simp [refresh_token, h]
  · intro tok payload v hd hsub
    have hne := lookupClaim_some_not_isEmpty payload "sub" v hsub
    simp [refresh_token, hd, hne, hsub]

/-- Witness for refresh_flow_contract: a concrete refresh-token exchange
returning a fresh access token for the same subject. -/
theorem refresh_flow_contract_witness :
    refresh_token (some (create_refresh_token [("sub", JVal.str "u@x.com")])) 0 =
      .success (create_access_token [("sub", JVal.str "u@x.com")] 15 0) "bearer" :=
  (refresh_flow_contract 0).2.2 (create_refresh_token [("sub", JVal.str "u@x.com")])
    [("sub", JVal.str "u@x.com")] (JVal.str "u@x.com") (by rfl) (by rfl)

/-- C8: the token verifier is total — for every input token and time it
returns the claims when jwt.decode succeeds and None for every failure
value (malformed structure, wrong algorithm, bad signature, failed claim
validation including expiry); no failure escapes the verifier. -/
theorem verifier_total (t : Token) (now : Nat) :
    (∀ e, jwtDecodeE t SECRET_KEY [ALGORITHM] now = .error e →
      decode_access_token t now = none ∧ decode_token t now = none) ∧
    (∀ c, jwtDecodeE t SECRET_KEY [ALGORITHM] now = .ok c →
      decode_access_token t now = some c ∧ decode_token t now = some c) := by
  constructor
  · intro e h
    constructor <;> simp [decode_access_token, decode_token, h]
  · intro c h
    constructor <;> simp [decode_access_token, decode_token, h]

/-- Witness for verifier_total on a malformed token. -/
theorem verifier_total_witness :
    decode_access_token (Token.malformed "zzz") 0 = none ∧
    decode_token (Token.malformed "zzz") 0 = none :=
  (verifier_total (Token.malformed "zzz") 0).1 .malformedError (by rfl)

/-- C9: create_refresh_token signs exactly the given claims map with the
module secret and algorithm and injects no expiration claim: the claims
carried by the resulting token equal the input map. -/
theorem refresh_token_claims_exact (d : Claims) :
    create_refresh_token d = Token.signed d SECRET_KEY ALGORITHM ∧
    Token.claimsOf (create_refresh_token d) = some d :=
  ⟨rfl, rfl⟩

/-- C1 (amended): on a successful login the response body carries the
access token (token_type bearer) and the refresh token is set as a
cookie that is HTTP-only, SameSite=Strict, with a max age of 7 days
(604800 seconds); the Secure flag of that cookie is False, so the cookie
is not marked secure. -/
theorem login_success_response (bcrypt : Nat → Nat → String → Nat) (s : Store)
    (username password : String) (now : Nat) (user : User)
    (hfind : findByEmail s username = some user)
    (hver : verifyStored bcrypt password user.password = true) :
    login bcrypt s username password now =
      .ok { access_token := create_access_token [("sub", JVal.str user.email)] 15 now,
            token_type := "bearer",
            cookie := { key := "refresh_token",
                        value := create_refresh_token [("sub", JVal.str user.email)],
                        httponly := true,
                        secure := false,
                        samesite := "strict",
                        max_age := 604800 } } := by
  simp [login, hfind, hver]

/-- Witness for login_success_response: the concrete login on demoStore
with the registered password. -/
theorem login_success_response_witness :
    login bc0 demoStore "a@x.com" "pw" 0 =
      .ok { access_token := create_access_token [("sub", JVal.str demoUser.email)] 15 0,
            token_type := "bearer",
            cookie := { key := "refresh_token",
                        value := create_refresh_token [("sub", JVal.str demoUser.email)],
                        httponly := true,
                        secure := false,
                        samesite := "strict",
                        max_age := 604800 } } :=
  login_success_response bc0 demoStore "a@x.com" "pw" 0 demoUser (by rfl) (by rfl)

/-- Counterexample for C1 as stated: a successful login whose refresh
cookie carries the Secure flag False — the handler passes secure=False
to set_cookie, so the cookie is not a secure cookie. -/
theorem login_cookie_not_secure_cex :
    (login bc0 demoStore "a@x.com" "pw" 0).toOption.map (fun r => r.cookie.secure) =
      some false := by
  rfl

/-- C2 (amended): signup preserves the credential-store invariant
(unique emails, password column always a digest) in both branches, and
update_user never assigns the password column, so it preserves the
hashed-passwords half; create_user does not preserve the invariant — it
persists the submitted password unhashed and performs no duplicate-email
check — and update_user can break email uniqueness, as the
counterexample shows. -/
theorem signup_preserves_credInv (bcrypt : Nat → Nat → String → Nat) (cost : Nat)
    (s : Store) (name email password : String) (salt : Nat)
    (h : credInv s = true) :
    credInv (signup bcrypt cost s name email password salt).2 = true ∧
    (∀ uid n e, ((update_user s uid n e).2.all (fun u => u.password.isDigest)) = true) := by
  have hparts : emailsNodup (s.map (fun u => u.email)) = true ∧
      s.all (fun u => u.password.isDigest) = true := by
    simpa [credInv, Bool.and_eq_true] using h
  constructor
  · cases hf : findByEmail s email with
    | some u => simpa [signup, hf] using h
    | none =>
      have hc := findByEmail_none_not_contains s email hf
      simp [signup, hf, credInv, List.map_append, List.all_append, PwdVal.isDigest,
        Bool.and_eq_true]
      exact ⟨emailsNodup_append_single _ _ hparts.1 hc,
        fun x hx => List.all_eq_true.mp hparts.2 x hx⟩
  · intro uid n e
    cases hg : sessionGet s uid with
    | none => simp [update_user, hg, hparts.2]
    | some u =>
      have h2 := hparts.2
      rw [List.all_eq_true] at h2
      simp only [update_user, hg, List.all_eq_true, List.mem_map]
      rintro b ⟨x, hx, rfl⟩
      by_cases hid : x.id = some uid
      · simpa [hid] using h2 x hx
      · simpa [hid] using h2 x hx

/-- Witness for signup_preserves_credInv: a second, fresh-email signup
on demoStore keeps the invariant. -/
theorem signup_preserves_credInv_witness :
    credInv (signup bc0 12 demoStore "Bob" "b@x.com" "pw2" 6).2 = true :=
  (signup_preserves_credInv bc0 12 demoStore "Bob" "b@x.com" "pw2" 6 (by rfl)).1

/-- Counterexample for C2 as stated: from reachable stores satisfying
the invariant, one create_user call yields a store violating it (a
second row with an existing email, holding the submitted password
unhashed), and one update_user call yields a store with a duplicate
email. -/
theorem create_user_breaks_credInv_cex :
    credInv demoStore = true ∧
    credInv (create_user demoStore "Bob" "a@x.com" "hunter2").2 = false ∧
    credInv demoStore2 = true ∧
    credInv (update_user demoStore2 2 "Bob" "a@x.com").2 = false :=
  ⟨rfl, rfl, rfl, rfl⟩

/-- C3 (amended): for every claims map that passes the default
non-expiry registered-claim validation of python-jose at the
verification time (no aud claim; nbf, when present, integral and not in
the future; iat integral; sub and jti strings when present), an access
token issued with ttlMinutes 15 verifies and returns its claims at any
time before issuance + 15 minutes; and for every claims map whatsoever,
verification returns None once the time exceeds issuance + 15 minutes. -/
theorem access_token_ttl (data : Claims) (now t : Nat) :
    (auxClaimsOk data t = true → t < now + 15 * 60 →
      decode_access_token (create_access_token data 15 now) t =
        some (setClaim data "exp" (JVal.nat (now + 15 * 60)))) ∧
    (now + 15 * 60 < t →
      decode_access_token (create_access_token data 15 now) t = none) := by
  have hsame := lookupClaim_setClaim_same data "exp" (JVal.nat (now + 15 * 60))
  have hform : create_access_token data 15 now =
      Token.signed (setClaim data "exp" (JVal.nat (now + 15 * 60))) SECRET_KEY ALGORITHM := rfl
  constructor
  · intro haux hlt
    have hnl : ¬ (now + 15 * 60 < t) := by omega
    have hexp : validateExp (setClaim data "exp" (JVal.nat (now + 15 * 60))) t = .ok () := by
      simp [validateExp, hsame, toIntClaim, hnl]
    have hok : exOk (validateClaims (setClaim data "exp" (JVal.nat (now + 15 * 60))) t) = true := by
      rw [validateClaims_exOk, auxClaimsOk_setClaim_exp, haux, hexp]
      rfl
    rw [hform]
    exact decode_access_token_signed_of_ok _ t hok
  · intro hgt
    have hexp : validateExp (setClaim data "exp" (JVal.nat (now + 15 * 60))) t = .error .expired := by
      simp [validateExp, hsame, toIntClaim, hgt]
    have hbad : exOk (validateClaims (setClaim data "exp" (JVal.nat (now + 15 * 60))) t) = false := by
      rw [validateClaims_exOk, hexp]
      simp [exOk]
    rw [hform]
    exact decode_access_token_signed_of_err _ t hbad

/-- Witness for access_token_ttl: a concrete subject-only claims map,
verified shortly after issuance. -/
theorem access_token_ttl_witness :
    decode_access_token (create_access_token [("sub", JVal.str "u@x.com")] 15 0) 10 =
      some (setClaim [("sub", JVal.str "u@x.com")] "exp" (JVal.nat (0 + 15 * 60))) :=
  (access_token_ttl [("sub", JVal.str "u@x.com")] 0 10).1 (by decide) (by decide)

/-- Counterexample for C3 as stated: a claims map carrying an aud claim
never verifies, even at the moment of issuance — jwt.decode under the
default options validates aud against the absent audience argument and
fails, so not every claims map verifies before expiry. -/
theorem access_token_ttl_cex :
    (0 : Nat) < 0 + 15 * 60 ∧
    decode_access_token (create_access_token [("aud", JVal.str "x")] 15 0) 0 = none :=
  ⟨by decide, by rfl⟩

/-- C4: the access-token verifier and the refresh-token verifier are
extensionally equal; hence every token accepted by one is accepted by
the other, a login-minted refresh token (subject only, no expiration) is
accepted by the session gate as a bearer access token at every time, and
an unexpired access token placed in the refresh cookie is accepted by
the refresh flow. -/
theorem decoders_extensionally_equal :
    decode_access_token = decode_token ∧
    (∀ t now c, decode_token t now = some c → decode_access_token t now = some c) ∧
    (∀ email now, get_current_user (create_refresh_token [("sub", JVal.str email)]) now =
      .principal (JVal.str email)) ∧
    (∀ email now t, ¬ (now + 15 * 60 < t) →
      refresh_token (some (create_access_token [("sub", JVal.str email)] 15 now)) t =
        .success (create_access_token [("sub", JVal.str email)] 15 t) "bearer") := by
  refine ⟨decode_token_eq.symm, ?_, ?_, ?_⟩
  · intro t now c h
    rw [decode_token_eq] at h
    exact h
  · intro email now
    have hok : exOk (validateClaims [("sub", JVal.str email)] now) = true := by
      simp [validateClaims, validateIat, validateNbf, validateExp, validateAud,
        validateSub, validateJti, lookupClaim, exOk, JVal.isStr]
    have hd : decode_access_token (Token.signed [("sub", JVal.str email)] SECRET_KEY ALGORITHM) now =
        some [("sub", JVal.str email)] :=
      decode_access_token_signed_of_ok _ now hok
    simp [get_current_user, create_refresh_token, jwtEncode, hd, lookupClaim]
  · intro email now t hle
    have hset : setClaim [("sub", JVal.str email)] "exp" (JVal.nat (now + 15 * 60)) =
        [("sub", JVal.str email), ("exp", JVal.nat (now + 15 * 60))] := by
      simp [setClaim, hasKey, lookupClaim]
    have hok : exOk (validateClaims [("sub", JVal.str email),
        ("exp", JVal.nat (now + 15 * 60))] t) = true := by
      simp [validateClaims, validateIat, validateNbf, validateExp, validateAud,
        validateSub, validateJti, lookupClaim, toIntClaim, exOk, JVal.isStr, hle]
    have hd : decode_token (Token.signed [("sub", JVal.str email),
        ("exp", JVal.nat (now + 15 * 60))] SECRET_KEY ALGORITHM) t =
        some [("sub", JVal.str email), ("exp", JVal.nat (now + 15 * 60))] := by
      rw [decode_token_eq]
      exact decode_access_token_signed_of_ok _ t hok
    have hform : create_access_token [("sub", JVal.str email)] 15 now =
        Token.signed [("sub", JVal.str email), ("exp", JVal.nat (now + 15 * 60))]
          SECRET_KEY ALGORITHM := by
      rw [create_access_token, jwtEncode, hset]
    rw [hform]
    simp [refresh_token, hd, lookupClaim]

/-- Witness for decoders_extensionally_equal: the refresh consequence at
a concrete subject and pair of times. -/
theorem decoders_extensionally_equal_witness :
    refresh_token (some (create_access_token [("sub", JVal.str "u@x.com")] 15 0)) 10 =
      .success (create_access_token [("sub", JVal.str "u@x.com")] 15 10) "bearer" :=
  decoders_extensionally_equal.2.2.2 "u@x.com" 0 10 (by decide)

/-- C10 (amended): for every validly signed token whose claims map is
nonempty, passes claim validation and lacks the sub key, the session
gate and the refresh flow do not produce the 401 rejection — the lookup
of the missing subject raises an uncaught KeyError; but a validly signed
token with an empty claims map is rejected with 401, because the guard
if not payload treats an empty dict exactly like None. -/
theorem missing_sub_keyerror (c : Claims) (now : Nat)
    (hne : c.isEmpty = false)
    (hsub : lookupClaim c "sub" = none)
    (hok : exOk (validateClaims c now) = true) :
    get_current_user (Token.signed c SECRET_KEY ALGORITHM) now = .keyError "sub" ∧
    refresh_token (some (Token.signed c SECRET_KEY ALGORITHM)) now = .keyError "sub" := by
  have hd := decode_access_token_signed_of_ok c now hok
  constructor
  · simp [get_current_user, hd, hne, hsub]
  · have hd2 : decode_token (Token.signed c SECRET_KEY ALGORITHM) now = some c := by
      rw [decode_token_eq]
      exact hd
    simp [refresh_token, hd2, hne, hsub]

/-- Witness for missing_sub_keyerror: a validly signed token whose only
claim is an unrelated key. -/
theorem missing_sub_keyerror_witness :
    get_current_user (Token.signed [("foo", JVal.str "bar")] SECRET_KEY ALGORITHM) 0 =
      .keyError "sub" ∧
    refresh_token (some (Token.signed [("foo", JVal.str "bar")] SECRET_KEY ALGORITHM)) 0 =
      .keyError "sub" :=
  missing_sub_keyerror [("foo", JVal.str "bar")] 0 (by rfl) (by rfl) (by decide)

/-- Counterexample for C10 as stated: the empty claims map is validly
signed and carries no sub claim, yet both the session gate and the
refresh flow produce the 401 rejection rather than a KeyError. -/
theorem empty_claims_401_cex :
    get_current_user (Token.signed [] SECRET_KEY ALGORITHM) 0 =
      .reject { status := 401, detail := "Invalid or expired token" } ∧
    refresh_token (some (Token.signed [] SECRET_KEY ALGORITHM)) 0 =
      .reject { status := 401, detail := "Invalid refresh token" } :=
  ⟨rfl, rfl⟩

end GenAI
